import Mathlib

/-
Verification of the ruby-usb binding (usb.c and lib/usb.rb): a shallow
embedding of the identity registry, the revocation sweep, the descriptor
tree walkers, the device-handle lifecycle, the transfer error translation,
and the pure Ruby utility layer, with theorems about the behaviour that
the design documentation describes.

Raw libusb node addresses are modelled as natural numbers with 0 playing
the role of the NULL pointer.  Ruby VALUE object identity is modelled by
allocation order: each wrapper object is identified by the natural number
it received when it was allocated, so reference equality of wrappers is
equality of these identifiers.  Ruby exceptions are modelled by an
explicit error type carried in Except.
-/

namespace RubyUsb

/-- The six wrapped entity kinds introduced by define_usb_struct in usb.c. -/
inductive Kind : Type
  | bus
  | device
  | config
  | interface
  | setting
  | endpoint
deriving DecidableEq, Repr

/-- Errors raised by the binding.  revoked models
rb_raise(rb_eArgError, "revoked USB::...") from get_rusb_* in usb.c,
closedHandle models rb_raise(rb_eArgError, "closed USB::DevHandle") from
get_usb_devhandle, and sysError code reason models rb_sys_fail(reason)
after errno = code, as performed by check_usb_error. -/
inductive UsbErr : Type
  | revoked (k : Kind)
  | closedHandle
  | sysError (code : Nat) (reason : String)
deriving DecidableEq, Repr

/-- The payload stored behind a wrapper: the rusb_*_t record of usb.c,
holding the raw node address (ptr) and the parent VALUE.  The parent is
an opaque VALUE encoded as a natural number. -/
structure WData : Type where
  ptr : Nat
  parent : Nat
deriving DecidableEq, Repr

/-- The per-kind registry state of usb.c: the st_table mapping raw
addresses to wrapper objects (table, modelling c_name##_objects), the
DATA_PTR of every wrapper object ever allocated (data: none models a
NULL DATA_PTR, that is a revoked wrapper), and the identity of the next
wrapper object to be allocated. -/
structure KindState : Type where
  table : List (Nat × Nat)
  data : Nat → Option WData
  nextId : Nat

/-- The initial registry state: st_init_numtable() in Init_usb, with no
wrapper allocated yet. -/
def KindState.init : KindState :=
  { table := [], data := fun _ => none, nextId := 0 }

/-- Whether a wrapper identity occurs as a value of the st_table. -/
def tableHasId (t : List (Nat × Nat)) (i : Nat) : Bool :=
  t.any (fun e => e.2 == i)

/-- rusb_c_name_make from the define_usb_struct macro in usb.c: a NULL
address yields Qnil (none); an address already registered yields the
existing wrapper unchanged; otherwise a fresh wrapper holding the address
and the parent is allocated and registered (st_add_direct). -/
def rusb_make (p : Nat) (parent : Nat) (s : KindState) : Option Nat × KindState :=
  if p = 0 then (none, s)
  else
    match s.table.lookup p with
    | some v => (some v, s)
    | none =>
      let v := s.nextId
      (some v,
        { table := (p, v) :: s.table
          data := fun i => if i = v then some { ptr := p, parent := parent } else s.data i
          nextId := v + 1 })

/-- check_usb_c_name from usb.c: the raw DATA_PTR of a wrapper (type
checking against other wrapper kinds is rendered by indexing states per
Kind). -/
def check_usb (s : KindState) (v : Nat) : Option WData :=
  s.data v

/-- The revoked-state predicate rusb_*_revoked_p of usb.c:
RTEST(!check_usb_c_name(v)). -/
def rusb_revoked_p (s : KindState) (v : Nat) : Bool :=
  (check_usb s v).isNone

/-- get_rusb_c_name from usb.c: raises the revoked-object error when the
DATA_PTR is NULL, otherwise yields the payload. -/
def get_rusb (k : Kind) (s : KindState) (v : Nat) : Except UsbErr WData :=
  match check_usb s v with
  | none => .error (.revoked k)
  | some d => .ok d

/-- A field accessor in the style of the one-line accessors of usb.c
(for example rusb_bus_location): get_usb_c_name(v)->field, where the
read of the underlying C structure field is abstracted as a function
heap of the raw address. -/
def get_usb_field (k : Kind) (heap : Nat → Nat) (s : KindState) (v : Nat) :
    Except UsbErr Nat :=
  (get_rusb k s v).map (fun d => heap d.ptr)

/-- A parent navigation accessor in the style of rusb_config_device,
rusb_interface_configuration, rusb_setting_interface and
rusb_endpoint_setting in usb.c: get_rusb_c_name(v)->parent. -/
def get_usb_parent (k : Kind) (s : KindState) (v : Nat) : Except UsbErr Nat :=
  (get_rusb k s v).map (fun d => d.parent)

/-- revoke_data_i applied by st_foreach over one registry in usb.c: the
DATA_PTR of every registered wrapper is set to NULL and every entry is
deleted from the table (ST_DELETE). -/
def revokeAll (s : KindState) : KindState :=
  { table := []
    data := fun i => if tableHasId s.table i then none else s.data i
    nextId := s.nextId }

/-- The whole binding state: one registry per entity kind, mirroring
bus_objects, device_objects, config_descriptor_objects,
interface_objects, interface_descriptor_objects and
endpoint_descriptor_objects in usb.c. -/
def GlobalState : Type := Kind → KindState

/-- The state with all six registries initial. -/
def initGlobal : GlobalState := fun _ => KindState.init

/-- Replace the registry of one kind. -/
def setKind (g : GlobalState) (k : Kind) (s : KindState) : GlobalState :=
  fun k2 => if k2 = k then s else g k2

/-- rusb_c_name_make acting on the whole binding state. -/
def makeAt (k : Kind) (p parent : Nat) (g : GlobalState) : Option Nat × GlobalState :=
  let r := rusb_make p parent (g k)
  (r.1, setKind g k r.2)

/-- USB.find_busses (rusb_find_busses in usb.c): st_foreach revoke_data_i
over every one of the six registries, before usb_find_busses()
repopulates the underlying tree. -/
def rusb_find_busses (g : GlobalState) : GlobalState :=
  fun k => revokeAll (g k)

/-- The binding states reachable from initialisation by wrapper creation
and by the revocation sweep.  USB.find_devices touches no registry and
needs no constructor. -/
inductive Reachable : GlobalState → Prop
  | init : Reachable initGlobal
  | make (k : Kind) (p parent : Nat) (g : GlobalState) :
      Reachable g → Reachable (makeAt k p parent g).2
  | findBusses (g : GlobalState) :
      Reachable g → Reachable (rusb_find_busses g)

/-- The registry invariant: every wrapper whose DATA_PTR is non-NULL is
registered in the st_table of its kind. -/
def LiveInTable (s : KindState) : Prop :=
  ∀ i, (s.data i).isSome = true → tableHasId s.table i = true

/-- The invariant over all six registries. -/
def WFGlobal (g : GlobalState) : Prop :=
  ∀ k, LiveInTable (g k)

/- ===== USB::DevHandle (usb.c) ===== -/

/-- A DevHandle wrapper is its DATA_PTR: the usb_dev_handle pointer, or
none once it has been cleared (closed).  rusb_dev_handle_new wraps the
pointer usb_open returned, with no NULL check. -/
def rusb_dev_handle_new (h : Option Nat) : Option Nat := h

/-- get_usb_devhandle from usb.c: raises the closed-handle error when
the DATA_PTR is NULL. -/
def get_usb_devhandle (v : Option Nat) : Except UsbErr Nat :=
  match v with
  | none => .error .closedHandle
  | some p => .ok p

/-- check_usb_error from usb.c: a negative return of the underlying
stack becomes errno = -ret and rb_sys_fail(reason); otherwise the value
is passed through. -/
def check_usb_error (reason : String) (ret : Int) : Except UsbErr Int :=
  if ret < 0 then .error (.sysError (-ret).toNat reason) else .ok ret

/-- The shared shape of every DevHandle operation in usb.c: fetch the
open handle (closed-handle check), call the underlying stack primitive
(whose return value is the parameter ret), and translate a negative
return through check_usb_error.  rusb_control_msg, rusb_bulk_write,
rusb_bulk_read, rusb_interrupt_write, rusb_interrupt_read,
rusb_get_string, rusb_get_string_simple, rusb_get_descriptor and
rusb_get_descriptor_by_endpoint all return INT2NUM(ret) on success and
are instances of this definition. -/
def transfer_call (reason : String) (ret : Int) (v : Option Nat) : Except UsbErr Int :=
  match get_usb_devhandle v with
  | .error e => .error e
  | .ok _ => check_usb_error reason ret

/-- USB::DevHandle#usb_bulk_read from usb.c. -/
def rusb_bulk_read (ret : Int) (v : Option Nat) : Except UsbErr Int :=
  transfer_call "usb_bulk_read" ret v

/-- USB::DevHandle#usb_get_string_simple from usb.c. -/
def rusb_get_string_simple (ret : Int) (v : Option Nat) : Except UsbErr Int :=
  transfer_call "usb_get_string_simple" ret v

/-- USB::DevHandle#usb_set_configuration from usb.c: same shape, but
returns Qnil (here Unit) on success instead of the byte count, like
usb_set_altinterface, usb_clear_halt, usb_reset, usb_claim_interface
and usb_release_interface. -/
def rusb_set_configuration (ret : Int) (v : Option Nat) : Except UsbErr Unit :=
  (transfer_call "usb_set_configuration" ret v).map (fun _ => ())

/-- USB::DevHandle#usb_close from usb.c: closed-handle check, underlying
usb_close (return value close_ret), error translation, then
DATA_PTR(v) = NULL.  The result is the new DATA_PTR of the handle. -/
def rusb_close (close_ret : Int) (v : Option Nat) : Except UsbErr (Option Nat) :=
  match get_usb_devhandle v with
  | .error e => .error e
  | .ok _ =>
    match check_usb_error "usb_close" close_ret with
    | .error e => .error e
    | .ok _ => .ok none

/-- rusb_devhandle_free from usb.c, the GC finalizer: usb_close is
invoked if and only if the stored pointer is non-NULL.  The result tells
whether the finalizer performs an underlying close. -/
def rusb_devhandle_free (v : Option Nat) : Bool :=
  v.isSome

/-- USB::Device#usb_open (rusb_device_open in usb.c): revoked check on
the device wrapper, usb_open on the raw device (result open_ret, none
modelling a NULL return from a refused open), and the result is wrapped
by rusb_dev_handle_new unconditionally. -/
def rusb_device_open (g : GlobalState) (v : Nat) (open_ret : Option Nat) :
    Except UsbErr (Option Nat) :=
  match get_rusb .device (g .device) v with
  | .error e => .error e
  | .ok _ => .ok (rusb_dev_handle_new open_ret)

/- ===== USB::Interface#settings (usb.c, both revisions) ===== -/

/-- The raw struct usb_interface of libusb as read through a wrapper:
the base address of the altsetting array and the num_altsetting count. -/
structure CInterface : Type where
  altsetting : Nat
  num_altsetting : Nat
deriving DecidableEq, Repr

/-- The loop body of rusb_interface_settings in usb.c: starting at array
index i with rem iterations left, wrap the interface descriptor at
address base + i (the address of altsetting[i]) with the given parent,
and collect the wrappers into the result array. -/
def wrapSettings (parent base : Nat) : Nat → Nat → KindState → List (Option Nat) × KindState
  | _, 0, s => ([], s)
  | i, rem + 1, s =>
    let r1 := rusb_make (base + i) parent s
    let r2 := wrapSettings parent base (i + 1) rem r1.2
    (r1.1 :: r2.1, r2.2)

/-- Wrapping of an explicit list of addresses in order, used to state
which array slots a collection loop touches. -/
def wrapAddrList (parent : Nat) : List Nat → KindState → List (Option Nat) × KindState
  | [], s => ([], s)
  | a :: rest, s =>
    let r1 := rusb_make a parent s
    let r2 := wrapAddrList parent rest r1.2
    (r1.1 :: r2.1, r2.2)

/-- USB::Interface#settings, current revision of usb.c
(rusb_interface_settings): revoked check, then the loop
for (i = 0; i < p->num_altsetting; i++) wrapping altsetting[i] with the
interface wrapper as parent.  The raw interface structs are abstracted
as the function ih of the raw address. -/
def rusb_interface_settings (ih : Nat → CInterface) (g : GlobalState) (v : Nat) :
    Except UsbErr (List (Option Nat) × GlobalState) :=
  match get_rusb .interface (g .interface) v with
  | .error e => .error e
  | .ok d =>
    let p := ih d.ptr
    let r := wrapSettings v p.altsetting 0 p.num_altsetting (g .setting)
    .ok (r.1, setKind g .setting r.2)

/-- USB::Interface#altsetting, earlier revision of usb.c
(rusb_interface_altsetting): the loop runs
for (i = 0; i <= p->num_altsetting; i++), one slot past the end.  That
revision of define_usb_struct stores no parent in the wrapper, so Qnil
(0) is passed as the parent here. -/
def rusb_interface_altsetting_old (ih : Nat → CInterface) (g : GlobalState) (v : Nat) :
    Except UsbErr (List (Option Nat) × GlobalState) :=
  match get_rusb .interface (g .interface) v with
  | .error e => .error e
  | .ok d =>
    let p := ih d.ptr
    let r := wrapSettings 0 p.altsetting 0 (p.num_altsetting + 1) (g .setting)
    .ok (r.1, setKind g .setting r.2)

/- ===== lib/usb.rb: enumeration ordering ===== -/

/-- A raw struct usb_bus as seen by the Ruby layer: the dirname byte
string (the sort key of USB.busses) and the location field, which keeps
two buses with equal dirnames distinguishable. -/
structure CBus : Type where
  dirname : List Nat
  location : Nat
deriving DecidableEq, Repr

/-- A raw struct usb_device as seen by the Ruby layer: the filename byte
string (the sort key of Bus#devices) and the devnum field. -/
structure CDevice : Type where
  filename : List Nat
  devnum : Nat
deriving DecidableEq, Repr

/-- USB.busses from lib/usb.rb: the while loop from USB.first_bus over
Bus#next collects the intrusive linked list in its underlying order
(modelled by the input list), then sort_by {|b| b.dirname} sorts
ascending by dirname.  Ruby sort_by is modelled by a stable insertion
sort on the byte-string key. -/
def USB_busses (stack : List CBus) : List CBus :=
  List.insertionSort (fun a b => a.dirname ≤ b.dirname) stack

/-- Bus#devices from lib/usb.rb: the while loop from Bus#first_device
over Device#next collects the device list in underlying order, then
sort_by {|d| d.filename} sorts ascending by filename. -/
def Bus_devices (devs : List CDevice) : List CDevice :=
  List.insertionSort (fun a b => a.filename ≤ b.filename) devs

/- ===== lib/usb.rb: class-code tables and USB.dev_string ===== -/

/-- One row of the CLASS_CODES table of lib/usb.rb: base class, optional
subclass, optional protocol, and the descriptive name. -/
structure ClassEntry : Type where
  base : Nat
  sub : Option Nat
  proto : Option Nat
  desc : String
deriving DecidableEq, Repr

/-- The CLASS_CODES table of lib/usb.rb, row for row. -/
def CLASS_CODES : List ClassEntry := [
  ⟨0x01, none, none, "Audio"⟩,
  ⟨0x02, none, none, "Comm"⟩,
  ⟨0x03, none, none, "HID"⟩,
  ⟨0x05, none, none, "Physical"⟩,
  ⟨0x06, some 0x01, some 0x01, "StillImaging"⟩,
  ⟨0x06, none, none, "Image"⟩,
  ⟨0x07, none, none, "Printer"⟩,
  ⟨0x08, some 0x01, none, "MassStorage RBC Bluk-Only"⟩,
  ⟨0x08, some 0x02, some 0x50, "MassStorage ATAPI Bluk-Only"⟩,
  ⟨0x08, some 0x03, some 0x50, "MassStorage QIC-157 Bluk-Only"⟩,
  ⟨0x08, some 0x04, none, "MassStorage UFI"⟩,
  ⟨0x08, some 0x05, some 0x50, "MassStorage SFF-8070i Bluk-Only"⟩,
  ⟨0x08, some 0x06, some 0x50, "MassStorage SCSI Bluk-Only"⟩,
  ⟨0x08, none, none, "MassStorage"⟩,
  ⟨0x09, some 0x00, some 0x00, "Full speed Hub"⟩,
  ⟨0x09, some 0x00, some 0x01, "Hi-speed Hub with single TT"⟩,
  ⟨0x09, some 0x00, some 0x02, "Hi-speed Hub with multiple TTs"⟩,
  ⟨0x09, none, none, "Hub"⟩,
  ⟨0x0a, none, none, "CDC"⟩,
  ⟨0x0b, none, none, "SmartCard"⟩,
  ⟨0x0d, some 0x00, some 0x00, "ContentSecurity"⟩,
  ⟨0x0e, none, none, "Video"⟩,
  ⟨0xdc, some 0x01, some 0x01, "Diagnostic USB2"⟩,
  ⟨0xdc, none, none, "Diagnostic"⟩,
  ⟨0xe0, some 0x01, some 0x01, "Bluetooth"⟩,
  ⟨0xe0, some 0x01, some 0x02, "UWB"⟩,
  ⟨0xe0, some 0x01, some 0x03, "RemoteNDIS"⟩,
  ⟨0xe0, some 0x02, some 0x01, "Host Wire Adapter Control/Data"⟩,
  ⟨0xe0, some 0x02, some 0x02, "Device Wire Adapter Control/Data"⟩,
  ⟨0xe0, some 0x02, some 0x03, "Device Wire Adapter Isochronous"⟩,
  ⟨0xe0, none, none, "Wireless Controller"⟩,
  ⟨0xef, some 0x01, some 0x01, "Active Sync"⟩,
  ⟨0xef, some 0x01, some 0x02, "Palm Sync"⟩,
  ⟨0xef, some 0x02, some 0x01, "Interface Association Descriptor"⟩,
  ⟨0xef, some 0x02, some 0x02, "Wire Adapter Multifunction Peripheral"⟩,
  ⟨0xef, some 0x03, some 0x01, "Cable Based Association Framework"⟩,
  ⟨0xef, none, none, "Miscellaneous"⟩,
  ⟨0xfe, some 0x01, some 0x01, "Device Firmware Upgrade"⟩,
  ⟨0xfe, some 0x02, some 0x00, "IRDA Bridge"⟩,
  ⟨0xfe, some 0x03, some 0x00, "USB Test and Measurement"⟩,
  ⟨0xfe, some 0x03, some 0x01, "USB Test and Measurement (USBTMC USB488)"⟩,
  ⟨0xfe, none, none, "Application Specific"⟩,
  ⟨0xff, none, none, "Vendor specific"⟩]

/-- CLASS_CODES_HASH3 of lib/usb.rb: the rows with a protocol, keyed by
[base_class, sub_class, protocol].  The building each-loop routes every
row to exactly one of the three hashes (if protocol, elsif sub_class,
else), so the single pass is rendered as one filter per hash; the keys
are pairwise distinct, so hash overwrite semantics never arises. -/
def CLASS_CODES_HASH3 : List ((Nat × Option Nat × Nat) × String) :=
  CLASS_CODES.filterMap (fun e => e.proto.map (fun p => ((e.base, e.sub, p), e.desc)))

/-- CLASS_CODES_HASH2 of lib/usb.rb: the rows with a subclass but no
protocol, keyed by [base_class, sub_class]. -/
def CLASS_CODES_HASH2 : List ((Nat × Nat) × String) :=
  CLASS_CODES.filterMap (fun e =>
    match e.proto, e.sub with
    | none, some s => some ((e.base, s), e.desc)
    | _, _ => none)

/-- CLASS_CODES_HASH1 of lib/usb.rb: the rows with neither subclass nor
protocol, keyed by base_class. -/
def CLASS_CODES_HASH1 : List (Nat × String) :=
  CLASS_CODES.filterMap (fun e =>
    match e.proto, e.sub with
    | none, none => some (e.base, e.desc)
    | _, _ => none)

/-- Ruby Hash#[] over an association list whose keys are pairwise
distinct. -/
def hlookup {κ : Type} [DecidableEq κ] (m : List (κ × String)) (k : κ) : Option String :=
  (m.find? (fun e => decide (e.1 = k))).map (fun e => e.2)

/-- The "%02x" format directive of Ruby: lowercase hexadecimal, padded
with zeros to at least two digits. -/
def hex2 (n : Nat) : String :=
  let ds := Nat.toDigits 16 n
  String.mk (List.replicate (2 - ds.length) '0' ++ ds)

/-- USB.dev_string from lib/usb.rb: exact-triple lookup, then
class+subclass lookup with the protocol appended in hex, then class-only
lookup with subclass and protocol appended in hex, then the generic
unknown string (whose spelling "Unkonwn" is the source text). -/
def dev_string (base_class sub_class protocol : Nat) : String :=
  match hlookup CLASS_CODES_HASH3 (base_class, some sub_class, protocol) with
  | some desc => desc
  | none =>
    match hlookup CLASS_CODES_HASH2 (base_class, sub_class) with
    | some desc => desc ++ " (" ++ hex2 protocol ++ ")"
    | none =>
      match hlookup CLASS_CODES_HASH1 base_class with
      | some desc => desc ++ " (" ++ hex2 sub_class ++ "," ++ hex2 protocol ++ ")"
      | none =>
        "Unkonwn(" ++ hex2 base_class ++ "," ++ hex2 sub_class ++ "," ++ hex2 protocol ++ ")"

/-- No CLASS_CODES row matches the triple exactly. -/
def noMatch3 (b s p : Nat) : Prop :=
  ∀ e ∈ CLASS_CODES, ¬(e.base = b ∧ e.sub = some s ∧ e.proto = some p)

/-- No two-level CLASS_CODES row matches base class and subclass. -/
def noMatch2 (b s : Nat) : Prop :=
  ∀ e ∈ CLASS_CODES, ¬(e.base = b ∧ e.sub = some s ∧ e.proto = none)

/-- No class-only CLASS_CODES row matches the base class. -/
def noMatch1 (b : Nat) : Prop :=
  ∀ e ∈ CLASS_CODES, ¬(e.base = b ∧ e.sub = none ∧ e.proto = none)

instance (b s p : Nat) : Decidable (noMatch3 b s p) := by
  unfold noMatch3; infer_instance

instance (b s : Nat) : Decidable (noMatch2 b s) := by
  unfold noMatch2; infer_instance

instance (b : Nat) : Decidable (noMatch1 b) := by
  unfold noMatch1; infer_instance

/- ===== lib/usb.rb: DevHandle#get_string_simple ===== -/

/-- Errno::EPIPE on Linux. -/
def EPIPE : Nat := 32

/-- Errno::EFBIG on Linux. -/
def EFBIG : Nat := 27

/-- Errno::EPERM on Linux. -/
def EPERM : Nat := 1

/-- The buffer "\0" * 1024 after usb_get_string_simple wrote the byte
sequence written into its front: the fetched bytes truncated to the
buffer capacity, the rest of the buffer still NUL. -/
def bufAfter (written : List Nat) : List Nat :=
  written.take 1024 ++ List.replicate (1024 - (written.take 1024).length) 0

/-- String#delete!("\0") as applied to the buffer: every NUL byte is
removed. -/
def strDelete0 (l : List Nat) : List Nat :=
  l.filter (fun b => b ≠ 0)

/-- DevHandle#get_string_simple from lib/usb.rb: allocate the 1024 byte
buffer, call usb_get_string_simple (underlying stack behaviour given by
written and ret), rescue Errno::EPIPE, Errno::EFBIG and Errno::EPERM
into the nil result, propagate every other error, and otherwise return
the buffer with NUL bytes deleted. -/
def get_string_simple (v : Option Nat) (written : List Nat) (ret : Int) :
    Except UsbErr (Option (List Nat)) :=
  match rusb_get_string_simple ret v with
  | .ok _ => .ok (some (strDelete0 (bufAfter written)))
  | .error (.sysError code reason) =>
    if code = EPIPE ∨ code = EFBIG ∨ code = EPERM then .ok none
    else .error (.sysError code reason)
  | .error e => .error e

/- ===== lib/usb.rb: cached Device string attributes ===== -/

/-- Whether a byte is stripped by Ruby String#strip (space and the
whitespace control characters). -/
def isRubySpace (b : Nat) : Bool :=
  b == 32 || (9 ≤ b && b ≤ 13)

/-- Ruby String#strip! as a pure function on byte strings: leading and
trailing whitespace removed. -/
def stripBytes (l : List Nat) : List Nat :=
  ((l.dropWhile isRubySpace).reverse.dropWhile isRubySpace).reverse

/-- A USB::Device wrapper as the Ruby layer sees it: the DATA_PTR of the
underlying wrapper (none when revoked) and the three memoising instance
variables of lib/usb.rb.  An instance variable is none while undefined
(defined? is false) and some v once assigned, where v itself may be nil
(the no-string result). -/
structure DeviceRb : Type where
  native : Option WData
  manufacturer_iv : Option (Option (List Nat))
  product_iv : Option (Option (List Nat))
  serial_iv : Option (Option (List Nat))
deriving DecidableEq, Repr

/-- The shared body of Device#manufacturer, Device#product and
Device#serial_number in lib/usb.rb: return the instance variable if
defined; otherwise self.open (which fails with the revoked error when
the device wrapper is revoked, before any hardware access), fetch the
string (outcome given by fetch), strip it if non-nil, store it in the
instance variable and return it.  The Bool of the result records
whether the hardware was opened by this call. -/
def cached_string_fetch (iv : Option (Option (List Nat))) (native : Option WData)
    (fetch : Except UsbErr (Option (List Nat))) :
    Except UsbErr (Option (List Nat)) × Option (Option (List Nat)) × Bool :=
  match iv with
  | some v => (.ok v, iv, false)
  | none =>
    match native with
    | none => (.error (.revoked .device), none, false)
    | some _ =>
      match fetch with
      | .error e => (.error e, none, true)
      | .ok v =>
        let v2 := v.map stripBytes
        (.ok v2, some v2, true)

/-- Device#manufacturer from lib/usb.rb. -/
def device_manufacturer (fetch : Except UsbErr (Option (List Nat))) (d : DeviceRb) :
    Except UsbErr (Option (List Nat)) × DeviceRb × Bool :=
  let r := cached_string_fetch d.manufacturer_iv d.native fetch
  (r.1, { d with manufacturer_iv := r.2.1 }, r.2.2)

/-- Device#product from lib/usb.rb. -/
def device_product (fetch : Except UsbErr (Option (List Nat))) (d : DeviceRb) :
    Except UsbErr (Option (List Nat)) × DeviceRb × Bool :=
  let r := cached_string_fetch d.product_iv d.native fetch
  (r.1, { d with product_iv := r.2.1 }, r.2.2)

/-- Device#serial_number from lib/usb.rb. -/
def device_serial_number (fetch : Except UsbErr (Option (List Nat))) (d : DeviceRb) :
    Except UsbErr (Option (List Nat)) × DeviceRb × Bool :=
  let r := cached_string_fetch d.serial_iv d.native fetch
  (r.1, { d with serial_iv := r.2.1 }, r.2.2)

/- ===== Concrete states used to evaluate the definitions ===== -/

/-- A binding state holding one live Device wrapper: the device at raw
address 42 was wrapped with parent VALUE 7, receiving identity 0. -/
def gW1 : GlobalState := (makeAt .device 42 7 initGlobal).2

/-- A binding state holding one live Interface wrapper: the interface at
raw address 10 was wrapped with parent Qnil, receiving identity 0. -/
def gI : GlobalState := (makeAt .interface 10 0 initGlobal).2

/-- An interface heap: every raw interface has its altsetting array at
address 100 and num_altsetting = 1. -/
def ihW : Nat → CInterface := fun _ => { altsetting := 100, num_altsetting := 1 }

/-- A bus whose dirname is "001" (bytes 48 48 49) at location 1. -/
def busA : CBus := { dirname := [48, 48, 49], location := 1 }

/-- A second bus with the same dirname "001" but location 2. -/
def busB : CBus := { dirname := [48, 48, 49], location := 2 }

/-- A bus with dirname "002" at location 3. -/
def busC : CBus := { dirname := [48, 48, 50], location := 3 }

/-- A device with filename "001". -/
def devA : CDevice := { filename := [48, 48, 49], devnum := 1 }

/-- A device with filename "002". -/
def devB : CDevice := { filename := [48, 48, 50], devnum := 2 }

/-- A live Device wrapper at the Ruby layer with no string cached yet. -/
def dLive : DeviceRb :=
  { native := some { ptr := 5, parent := 0 }
    manufacturer_iv := none
    product_iv := none
    serial_iv := none }

/-- A string fetch that fails with an error outside the rescued set
(EIO = 5), as usb_get_string_simple reports for an I/O failure. -/
def fetchFail : Except UsbErr (Option (List Nat)) :=
  .error (.sysError 5 "usb_get_string_simple")

/- ===== Registry invariant ===== -/

theorem liveInTable_make (p parent : Nat) (s : KindState) (h : LiveInTable s) :
    LiveInTable (rusb_make p parent s).2 := by
  intro i hi
  by_cases hp : p = 0
  · simp only [rusb_make, if_pos hp] at hi ⊢
    exact h i hi
  · cases hl : s.table.lookup p with
    | some v =>
      simp only [rusb_make, if_neg hp, hl] at hi ⊢
      exact h i hi
    | none =>
      simp only [rusb_make, if_neg hp, hl] at hi ⊢
      by_cases hiv : i = s.nextId
      · subst hiv
        simp [tableHasId]
      · simp only [if_neg hiv] at hi
        have := h i hi
        simp only [tableHasId, List.any_cons, Bool.or_eq_true] at this ⊢
        exact Or.inr this

theorem liveInTable_revokeAll (s : KindState) (h : LiveInTable s) :
    LiveInTable (revokeAll s) := by
  intro i hi
  simp only [revokeAll] at hi
  by_cases ht : tableHasId s.table i = true
  · simp [ht] at hi
  · rw [if_neg ht] at hi
    exact absurd (h i hi) ht

theorem wf_reachable (g : GlobalState) (h : Reachable g) : WFGlobal g := by
  induction h with
  | init =>
    intro k i hi
    simp [initGlobal, KindState.init] at hi
  | make k p parent g _ ih =>
    intro k2
    by_cases hk : k2 = k
    · subst hk
      intro i hi
      simp only [makeAt, setKind, if_pos rfl] at hi ⊢
      exact liveInTable_make p parent (g k2) (ih k2) i hi
    · intro i hi
      simp only [makeAt, setKind, if_neg hk] at hi ⊢
      exact ih k2 i hi
  | findBusses g _ ih =>
    intro k
    exact liveInTable_revokeAll (g k) (ih k)

/-- C1: after the revocation sweep performed at the start of
USB.find_busses (revoke_all), every wrapper of every entity kind (Bus,
Device, Configuration, Interface, Setting, Endpoint) that was live
before the call has revoked? = true, and every field accessor and every
parent navigation accessor on it fails with the revoked-object error
instead of returning stale data. -/
theorem C1_revocation_sweep (g : GlobalState) (hg : Reachable g) (k : Kind) (i : Nat)
    (hlive : ((g k).data i).isSome = true) :
    rusb_revoked_p (rusb_find_busses g k) i = true ∧
    (∀ heap, get_usb_field k heap (rusb_find_busses g k) i = .error (.revoked k)) ∧
    get_usb_parent k (rusb_find_busses g k) i = .error (.revoked k) := by
  have hwf := wf_reachable g hg k i hlive
  have hnone : (rusb_find_busses g k).data i = none := by
    simp [rusb_find_busses, revokeAll, hwf]
  refine ⟨?_, ?_, ?_⟩
  · simp [rusb_revoked_p, check_usb, hnone]
  · intro heap
    simp [get_usb_field, get_rusb, check_usb, hnone, Except.map]
  · simp [get_usb_parent, get_rusb, check_usb, hnone, Except.map]

theorem C1_revocation_sweep_witness :
    ((gW1 .device).data 0).isSome = true ∧
    rusb_revoked_p (rusb_find_busses gW1 .device) 0 = true ∧
    get_usb_field .device (fun _ => 5) (rusb_find_busses gW1 .device) 0 =
      .error (.revoked .device) ∧
    get_usb_parent .device (rusb_find_busses gW1 .device) 0 = .error (.revoked .device) := by
  have hr : Reachable gW1 := Reachable.make .device 42 7 initGlobal Reachable.init
  have h := C1_revocation_sweep gW1 hr .device 0 (by decide)
  exact ⟨by decide, h.1, h.2.1 (fun _ => 5), h.2.2⟩

/-- C3: wrapping the same non-NULL, not yet registered address twice
(with no revocation in between) returns the same wrapper object, leaves
the state of the second call identical to the state after the first,
and the stored parent is the one passed to the first wrap: the second
parent argument has no effect. -/
theorem C3_wrap_identity (s : KindState) (a p1 p2 : Nat) (ha : a ≠ 0)
    (hnew : s.table.lookup a = none) :
    (rusb_make a p2 (rusb_make a p1 s).2).1 = (rusb_make a p1 s).1 ∧
    (rusb_make a p2 (rusb_make a p1 s).2).2 = (rusb_make a p1 s).2 ∧
    (rusb_make a p1 s).1 = some s.nextId ∧
    (rusb_make a p2 (rusb_make a p1 s).2).2.data s.nextId =
      some { ptr := a, parent := p1 } := by
  simp [rusb_make, ha, hnew, List.lookup]

theorem C3_wrap_identity_witness :
    (rusb_make 42 9 (rusb_make 42 7 KindState.init).2).1 =
      (rusb_make 42 7 KindState.init).1 ∧
    (rusb_make 42 9 (rusb_make 42 7 KindState.init).2).2 =
      (rusb_make 42 7 KindState.init).2 ∧
    (rusb_make 42 7 KindState.init).1 = some KindState.init.nextId ∧
    (rusb_make 42 9 (rusb_make 42 7 KindState.init).2).2.data KindState.init.nextId =
      some { ptr := 42, parent := 7 } := by
  exact C3_wrap_identity KindState.init 42 7 9 (by decide) (by decide)

/-- C4: usb_close on an open handle whose underlying close succeeds
returns successfully and clears the backing pointer; a second usb_close
on the now-closed handle fails with the closed-handle error; every
transfer and control operation on a closed handle fails with the
closed-handle error whatever the stack would have returned; and the GC
finalizer performs no second underlying close on a closed handle. -/
theorem C4_handle_lifecycle (p : Nat) (r : Int) (hr : 0 ≤ r) :
    rusb_close r (some p) = .ok none ∧
    (∀ r2, rusb_close r2 none = .error .closedHandle) ∧
    (∀ reason ret, transfer_call reason ret none = .error .closedHandle) ∧
    rusb_devhandle_free none = false := by
  have hnr : ¬(r < 0) := not_lt.mpr hr
  refine ⟨?_, fun r2 => rfl, fun reason ret => rfl, rfl⟩
  simp [rusb_close, get_usb_devhandle, check_usb_error, hnr]

theorem C4_handle_lifecycle_witness :
    rusb_close 0 (some 1) = .ok none ∧
    rusb_close 0 none = .error .closedHandle ∧
    transfer_call "usb_bulk_read" 3 none = .error .closedHandle ∧
    rusb_devhandle_free none = false := by
  have h := C4_handle_lifecycle 1 0 (by decide)
  exact ⟨h.1, h.2.1 0, h.2.2.1 "usb_bulk_read" 3, h.2.2.2⟩

/-- C5 counterexample: with a live Device wrapper and the underlying
stack refusing the open (usb_open returns NULL), Device#usb_open does
not fail: it returns a DevHandle (whose backing pointer is NULL). -/
theorem C5_open_counterexample :
    rusb_device_open gW1 0 none = .ok none := by
  rfl

/-- C5 amended: when the underlying stack refuses to open a session for
a live Device, Device#usb_open raises no error and returns a DevHandle
wrapping the NULL result; every transfer operation and usb_close on
that handle then fails with the closed-handle error.  No OpenFailed
error exists in the binding. -/
theorem C5_open_refused (g : GlobalState) (v : Nat) (d : WData)
    (hd : (g .device).data v = some d) :
    rusb_device_open g v none = .ok none ∧
    (∀ reason ret, transfer_call reason ret (rusb_dev_handle_new none) =
      .error .closedHandle) ∧
    (∀ r, rusb_close r (rusb_dev_handle_new none) = .error .closedHandle) := by
  refine ⟨?_, fun reason ret => rfl, fun r => rfl⟩
  simp [rusb_device_open, get_rusb, check_usb, hd, rusb_dev_handle_new]

theorem C5_open_refused_witness :
    rusb_device_open gW1 0 none = .ok (none : Option Nat) ∧
    transfer_call "usb_bulk_read" 3 (rusb_dev_handle_new none) = .error .closedHandle ∧
    rusb_close 0 (rusb_dev_handle_new none) = .error .closedHandle := by
  have h := C5_open_refused gW1 0 { ptr := 42, parent := 7 } (by decide)
  exact ⟨h.1, h.2.1 "usb_bulk_read" 3, h.2.2 0⟩

/-- C6: every transfer-facade operation on an open handle fails with the
OS error of code -r and the operation name as message when the
underlying primitive returns a negative r, and returns r itself (the
byte count, or nil-success for the configuration-mutating calls
instantiated by rusb_set_configuration) when r is non-negative. -/
theorem C6_negative_return (reason : String) (r : Int) (p : Nat) :
    (r < 0 →
      transfer_call reason r (some p) = .error (.sysError (-r).toNat reason) ∧
      rusb_set_configuration r (some p) =
        .error (.sysError (-r).toNat "usb_set_configuration")) ∧
    (0 ≤ r →
      transfer_call reason r (some p) = .ok r ∧
      rusb_set_configuration r (some p) = .ok ()) := by
  constructor
  · intro hr
    simp [transfer_call, rusb_set_configuration, get_usb_devhandle, check_usb_error, hr,
      Except.map]
  · intro hr
    have hnr : ¬(r < 0) := not_lt.mpr hr
    simp [transfer_call, rusb_set_configuration, get_usb_devhandle, check_usb_error, hnr,
      Except.map]

theorem C6_negative_return_witness :
    transfer_call "usb_bulk_read" (-32) (some 1) = .error (.sysError 32 "usb_bulk_read") ∧
    rusb_set_configuration (-32) (some 1) =
      .error (.sysError 32 "usb_set_configuration") ∧
    transfer_call "usb_bulk_read" 7 (some 1) = .ok 7 ∧
    rusb_set_configuration 7 (some 1) = .ok () := by
  have h1 := (C6_negative_return "usb_bulk_read" (-32) 1).1 (by decide)
  have h2 := (C6_negative_return "usb_bulk_read" 7 1).2 (by decide)
  exact ⟨h1.1, h1.2, h2.1, h2.2⟩

/-- C2: evaluation of both revisions of the alternate-setting
collection on a live interface whose num_altsetting is 1 and whose
altsetting array sits at address 100.  The current
rusb_interface_settings returns exactly 1 entry and never wraps the
address of altsetting[1]; the earlier rusb_interface_altsetting
returns 2 entries and registers the out-of-range address 101 =
altsetting + num_altsetting in the Setting registry. -/
theorem C2_altsetting_bounds :
    (ihW 10).num_altsetting = 1 ∧
    (rusb_interface_settings ihW gI 0).map (fun r => r.1.length) = .ok 1 ∧
    (rusb_interface_settings ihW gI 0).map (fun r => (r.2 .setting).table.lookup 101) =
      .ok none ∧
    (rusb_interface_altsetting_old ihW gI 0).map (fun r => r.1.length) = .ok 2 ∧
    (rusb_interface_altsetting_old ihW gI 0).map
      (fun r => (r.2 .setting).table.lookup 101) = .ok (some 1) := by
  refine ⟨rfl, rfl, rfl, rfl, rfl⟩

theorem filter_ne_zero_replicate (n : Nat) :
    (List.replicate n 0).filter (fun b => decide (b ≠ 0)) = [] := by
  induction n with
  | zero => rfl
  | succ k ih => simp [List.replicate_succ, ih]

theorem strDelete0_bufAfter (written : List Nat) :
    strDelete0 (bufAfter written) = strDelete0 (written.take 1024) := by
  unfold strDelete0 bufAfter
  rw [List.filter_append, filter_ne_zero_replicate, List.append_nil]

/-- C7: DevHandle#get_string_simple works on a fixed 1024-byte buffer;
on a successful fetch it returns the fetched bytes with every NUL byte
removed; when the fetch fails with EPIPE, EFBIG or EPERM it returns the
no-string result nil; any other fetch error is propagated unchanged;
and the closed-handle error is not swallowed either. -/
theorem C7_get_string_simple (p : Nat) (written : List Nat) (ret : Int) :
    (bufAfter written).length = 1024 ∧
    (0 ≤ ret →
      get_string_simple (some p) written ret = .ok (some (strDelete0 (written.take 1024))) ∧
      ∀ b ∈ strDelete0 (written.take 1024), b ≠ 0) ∧
    (ret < 0 → ((-ret).toNat = EPIPE ∨ (-ret).toNat = EFBIG ∨ (-ret).toNat = EPERM) →
      get_string_simple (some p) written ret = .ok none) ∧
    (ret < 0 → (-ret).toNat ≠ EPIPE → (-ret).toNat ≠ EFBIG → (-ret).toNat ≠ EPERM →
      get_string_simple (some p) written ret =
        .error (.sysError (-ret).toNat "usb_get_string_simple")) ∧
    get_string_simple none written ret = .error .closedHandle := by
  refine ⟨?_, ?_, ?_, ?_, rfl⟩
  · have hle : (written.take 1024).length ≤ 1024 := List.length_take_le 1024 written
    simp [bufAfter, Nat.add_sub_cancel' hle]
  · intro hr
    have hnr : ¬(ret < 0) := not_lt.mpr hr
    constructor
    · simp [get_string_simple, rusb_get_string_simple, transfer_call, get_usb_devhandle,
        check_usb_error, hnr, strDelete0_bufAfter]
    · intro b hb
      simp [strDelete0, List.mem_filter] at hb
      exact hb.2
  · intro hr hcode
    simp [get_string_simple, rusb_get_string_simple, transfer_call, get_usb_devhandle,
      check_usb_error, hr, hcode]
  · intro hr h1 h2 h3
    simp [get_string_simple, rusb_get_string_simple, transfer_call, get_usb_devhandle,
      check_usb_error, hr, h1, h2, h3]

theorem C7_get_string_simple_witness :
    (bufAfter [72, 0, 105]).length = 1024 ∧
    get_string_simple (some 1) [72, 0, 105] 3 = .ok (some [72, 105]) ∧
    get_string_simple (some 1) [] (-32) = .ok none ∧
    get_string_simple (some 1) [] (-5) = .error (.sysError 5 "usb_get_string_simple") ∧
    get_string_simple none [] 3 = .error .closedHandle := by
  have h1 := C7_get_string_simple 1 [72, 0, 105] 3
  have h2 := C7_get_string_simple 1 [] (-32)
  have h3 := C7_get_string_simple 1 [] (-5)
  have h4 := C7_get_string_simple 0 [] 3
  refine ⟨h1.1, ?_, ?_, ?_, h4.2.2.2.2⟩
  · have := (h1.2.1 (by decide)).1
    simpa using this
  · exact h2.2.2.1 (by decide) (by decide)
  · exact h3.2.2.2.1 (by decide) (by decide) (by decide) (by decide)

theorem sorted_key_perm_eq {α κ : Type} [LinearOrder κ] (key : α → κ) :
    ∀ l1 l2 : List α, List.Sorted (fun a b => key a ≤ key b) l1 →
      List.Sorted (fun a b => key a ≤ key b) l2 → l1.Perm l2 →
      (l1.map key).Nodup → l1 = l2 := by
  intro l1
  induction l1 with
  | nil =>
    intro l2 _ _ hp _
    exact (hp.symm.eq_nil).symm
  | cons a t ih =>
    intro l2 hs1 hs2 hp hnd
    cases l2 with
    | nil => exact absurd hp.eq_nil (by simp)
    | cons b t2 =>
      have hab : b ∈ a :: t := hp.mem_iff.mpr (List.mem_cons_self b t2)
      have hba : a ∈ b :: t2 := hp.mem_iff.mp (List.mem_cons_self a t)
      have h1 : key a ≤ key b := by
        rcases List.mem_cons.mp hab with h | h
        · rw [h]
        · exact (List.sorted_cons.mp hs1).1 b h
      have h2 : key b ≤ key a := by
        rcases List.mem_cons.mp hba with h | h
        · rw [h]
        · exact (List.sorted_cons.mp hs2).1 a h
      have hk : key a = key b := le_antisymm h1 h2
      simp only [List.map_cons, List.nodup_cons] at hnd
      have hbeq : b = a := by
        rcases List.mem_cons.mp hab with h | h
        · exact h
        · exfalso
          have hm : key b ∈ t.map key := List.mem_map_of_mem key h
          rw [← hk] at hm
          exact hnd.1 hm
      subst hbeq
      have hpt : t.Perm t2 := hp.cons_inv
      have ht := ih t2 (List.sorted_cons.mp hs1).2 (List.sorted_cons.mp hs2).2 hpt hnd.2
      rw [ht]

/-- C8 counterexample: two buses sharing the dirname "001" make the
result of USB.busses depend on the order of the underlying linked
list, so the result is not the same for every underlying order. -/
theorem C8_order_counterexample :
    USB_busses [busA, busB] ≠ USB_busses [busB, busA] := by
  decide

/-- C8 amended: USB.busses returns a permutation of the underlying bus
list sorted ascending by dirname, Bus#devices returns a permutation of
the underlying device list sorted ascending by filename, and whenever
the name keys are pairwise distinct the result is the same for every
order of the underlying intrusive linked list. -/
theorem C8_sorted_enumeration (stack : List CBus) (devs : List CDevice) :
    List.Sorted (fun a b : CBus => a.dirname ≤ b.dirname) (USB_busses stack) ∧
    (USB_busses stack).Perm stack ∧
    List.Sorted (fun a b : CDevice => a.filename ≤ b.filename) (Bus_devices devs) ∧
    (Bus_devices devs).Perm devs ∧
    ((stack.map CBus.dirname).Nodup →
      ∀ stack2, stack.Perm stack2 → USB_busses stack = USB_busses stack2) ∧
    ((devs.map CDevice.filename).Nodup →
      ∀ devs2, devs.Perm devs2 → Bus_devices devs = Bus_devices devs2) := by
  have hbTot : IsTotal CBus (fun a b => a.dirname ≤ b.dirname) :=
    ⟨fun a b => le_total a.dirname b.dirname⟩
  have hbTrans : IsTrans CBus (fun a b => a.dirname ≤ b.dirname) :=
    ⟨fun _ _ _ hab hbc => le_trans hab hbc⟩
  have hdTot : IsTotal CDevice (fun a b => a.filename ≤ b.filename) :=
    ⟨fun a b => le_total a.filename b.filename⟩
  have hdTrans : IsTrans CDevice (fun a b => a.filename ≤ b.filename) :=
    ⟨fun _ _ _ hab hbc => le_trans hab hbc⟩
  have hsb : ∀ l : List CBus,
      List.Sorted (fun a b : CBus => a.dirname ≤ b.dirname) (USB_busses l) :=
    fun l => @List.sorted_insertionSort CBus (fun a b => a.dirname ≤ b.dirname) _ hbTot hbTrans l
  have hsd : ∀ l : List CDevice,
      List.Sorted (fun a b : CDevice => a.filename ≤ b.filename) (Bus_devices l) :=
    fun l =>
      @List.sorted_insertionSort CDevice (fun a b => a.filename ≤ b.filename) _ hdTot hdTrans l
  have hpb : ∀ l : List CBus, (USB_busses l).Perm l := fun l => by
    unfold USB_busses
    exact List.perm_insertionSort _ l
  have hpd : ∀ l : List CDevice, (Bus_devices l).Perm l := fun l => by
    unfold Bus_devices
    exact List.perm_insertionSort _ l
  refine ⟨hsb stack, hpb stack, hsd devs, hpd devs, ?_, ?_⟩
  · intro hnd stack2 hperm
    have hnd2 : ((USB_busses stack).map CBus.dirname).Nodup :=
      (List.Perm.nodup_iff ((hpb stack).map CBus.dirname)).mpr hnd
    exact sorted_key_perm_eq CBus.dirname (USB_busses stack) (USB_busses stack2)
      (hsb stack) (hsb stack2)
      (((hpb stack).trans hperm).trans (hpb stack2).symm) hnd2
  · intro hnd devs2 hperm
    have hnd2 : ((Bus_devices devs).map CDevice.filename).Nodup :=
      (List.Perm.nodup_iff ((hpd devs).map CDevice.filename)).mpr hnd
    exact sorted_key_perm_eq CDevice.filename (Bus_devices devs) (Bus_devices devs2)
      (hsd devs) (hsd devs2)
      (((hpd devs).trans hperm).trans (hpd devs2).symm) hnd2

theorem C8_sorted_enumeration_witness :
    List.Sorted (fun a b : CBus => a.dirname ≤ b.dirname) (USB_busses [busC, busA]) ∧
    USB_busses [busA, busC] = USB_busses [busC, busA] ∧
    Bus_devices [devA, devB] = Bus_devices [devB, devA] := by
  have h1 := C8_sorted_enumeration [busC, busA] []
  have h2 := C8_sorted_enumeration [busA, busC] [devA, devB]
  exact ⟨h1.1, h2.2.2.2.2.1 (by decide) [busC, busA] (by decide),
    h2.2.2.2.2.2 (by decide) [devB, devA] (by decide)⟩

theorem hlookup_cons {κ : Type} [DecidableEq κ] (e : κ × String) (t : List (κ × String))
    (k : κ) :
    hlookup (e :: t) k = if e.1 = k then some e.2 else hlookup t k := by
  by_cases h : e.1 = k
  · simp [hlookup, List.find?_cons, h]
  · simp [hlookup, List.find?_cons, h]

theorem hlookup_eq_some_iff {κ : Type} [DecidableEq κ] :
    ∀ m : List (κ × String), (m.map Prod.fst).Nodup →
      ∀ k d, hlookup m k = some d ↔ (k, d) ∈ m := by
  intro m
  induction m with
  | nil =>
    intro _ k d
    simp [hlookup]
  | cons e t ih =>
    intro hnd k d
    simp only [List.map_cons, List.nodup_cons] at hnd
    rw [hlookup_cons]
    by_cases hk : e.1 = k
    · subst hk
      rw [if_pos rfl]
      constructor
      · intro hl
        rw [Option.some.injEq] at hl
        subst hl
        exact List.mem_cons_self _ _
      · intro hm
        rcases List.mem_cons.mp hm with h | h
        · have hd : d = e.2 := congrArg Prod.snd h
          rw [hd]
        · exfalso
          exact hnd.1 (by simpa using List.mem_map_of_mem Prod.fst h)
    · rw [if_neg hk, ih hnd.2 k d]
      constructor
      · exact fun h => List.mem_cons_of_mem e h
      · intro hm
        rcases List.mem_cons.mp hm with h | h
        · exact absurd (congrArg Prod.fst h).symm hk
        · exact h

theorem mem_hash3_iff (b : Nat) (os : Option Nat) (p : Nat) (d : String) :
    ((b, os, p), d) ∈ CLASS_CODES_HASH3 ↔ ClassEntry.mk b os (some p) d ∈ CLASS_CODES := by
  unfold CLASS_CODES_HASH3
  rw [List.mem_filterMap]
  constructor
  · rintro ⟨⟨eb, es, ep, ed⟩, he, hmap⟩
    cases ep with
    | none => simp at hmap
    | some q =>
      simp only [Option.map_some', Option.some.injEq, Prod.mk.injEq] at hmap
      obtain ⟨⟨h1, h2, h3⟩, h4⟩ := hmap
      subst h1; subst h2; subst h3; subst h4
      exact he
  · intro he
    exact ⟨⟨b, os, some p, d⟩, he, rfl⟩

theorem mem_hash2_iff (b s : Nat) (d : String) :
    ((b, s), d) ∈ CLASS_CODES_HASH2 ↔ ClassEntry.mk b (some s) none d ∈ CLASS_CODES := by
  unfold CLASS_CODES_HASH2
  rw [List.mem_filterMap]
  constructor
  · rintro ⟨⟨eb, es, ep, ed⟩, he, hmap⟩
    cases ep <;> cases es <;> simp only [Option.some.injEq, Prod.mk.injEq] at hmap
    case none.some s2 =>
      obtain ⟨⟨h1, h2⟩, h3⟩ := hmap
      subst h1; subst h2; subst h3
      exact he
    all_goals simp at hmap
  · intro he
    exact ⟨⟨b, some s, none, d⟩, he, rfl⟩

theorem mem_hash1_iff (b : Nat) (d : String) :
    (b, d) ∈ CLASS_CODES_HASH1 ↔ ClassEntry.mk b none none d ∈ CLASS_CODES := by
  unfold CLASS_CODES_HASH1
  rw [List.mem_filterMap]
  constructor
  · rintro ⟨⟨eb, es, ep, ed⟩, he, hmap⟩
    cases ep <;> cases es <;> simp only [Option.some.injEq, Prod.mk.injEq] at hmap
    case none.none =>
      obtain ⟨h1, h2⟩ := hmap
      subst h1; subst h2
      exact he
    all_goals simp at hmap
  · intro he
    exact ⟨⟨b, none, none, d⟩, he, rfl⟩

theorem nodup_hash3 : (CLASS_CODES_HASH3.map Prod.fst).Nodup := by decide

theorem nodup_hash2 : (CLASS_CODES_HASH2.map Prod.fst).Nodup := by decide

theorem nodup_hash1 : (CLASS_CODES_HASH1.map Prod.fst).Nodup := by decide

/-- C9: USB.dev_string applies the three-tier precedence over the
CLASS_CODES table: an exact (class, subclass, protocol) row wins and its
name is returned as is; otherwise a (class, subclass) row wins and its
name is suffixed with the protocol in hex; otherwise a class-only row
wins and its name is suffixed with subclass and protocol in hex;
otherwise the generic unknown string embeds all three values in hex. -/
theorem C9_dev_string_precedence (b s p : Nat) :
    (∀ d, ClassEntry.mk b (some s) (some p) d ∈ CLASS_CODES → dev_string b s p = d) ∧
    (noMatch3 b s p →
      ∀ d, ClassEntry.mk b (some s) none d ∈ CLASS_CODES →
        dev_string b s p = d ++ " (" ++ hex2 p ++ ")") ∧
    (noMatch3 b s p → noMatch2 b s →
      ∀ d, ClassEntry.mk b none none d ∈ CLASS_CODES →
        dev_string b s p = d ++ " (" ++ hex2 s ++ "," ++ hex2 p ++ ")") ∧
    (noMatch3 b s p → noMatch2 b s → noMatch1 b →
      dev_string b s p =
        "Unkonwn(" ++ hex2 b ++ "," ++ hex2 s ++ "," ++ hex2 p ++ ")") := by
  have h3some : ∀ d, ClassEntry.mk b (some s) (some p) d ∈ CLASS_CODES →
      hlookup CLASS_CODES_HASH3 (b, some s, p) = some d := fun d hd =>
    (hlookup_eq_some_iff _ nodup_hash3 _ _).mpr ((mem_hash3_iff b (some s) p d).mpr hd)
  have h2some : ∀ d, ClassEntry.mk b (some s) none d ∈ CLASS_CODES →
      hlookup CLASS_CODES_HASH2 (b, s) = some d := fun d hd =>
    (hlookup_eq_some_iff _ nodup_hash2 _ _).mpr ((mem_hash2_iff b s d).mpr hd)
  have h1some : ∀ d, ClassEntry.mk b none none d ∈ CLASS_CODES →
      hlookup CLASS_CODES_HASH1 b = some d := fun d hd =>
    (hlookup_eq_some_iff _ nodup_hash1 _ _).mpr ((mem_hash1_iff b d).mpr hd)
  have h3none : noMatch3 b s p → hlookup CLASS_CODES_HASH3 (b, some s, p) = none := by
    intro hn
    cases hh : hlookup CLASS_CODES_HASH3 (b, some s, p) with
    | none => rfl
    | some d =>
      exfalso
      have hm := (mem_hash3_iff b (some s) p d).mp
        ((hlookup_eq_some_iff _ nodup_hash3 _ _).mp hh)
      exact hn _ hm ⟨rfl, rfl, rfl⟩
  have h2none : noMatch2 b s → hlookup CLASS_CODES_HASH2 (b, s) = none := by
    intro hn
    cases hh : hlookup CLASS_CODES_HASH2 (b, s) with
    | none => rfl
    | some d =>
      exfalso
      have hm := (mem_hash2_iff b s d).mp
        ((hlookup_eq_some_iff _ nodup_hash2 _ _).mp hh)
      exact hn _ hm ⟨rfl, rfl, rfl⟩
  have h1none : noMatch1 b → hlookup CLASS_CODES_HASH1 b = none := by
    intro hn
    cases hh : hlookup CLASS_CODES_HASH1 b with
    | none => rfl
    | some d =>
      exfalso
      have hm := (mem_hash1_iff b d).mp
        ((hlookup_eq_some_iff _ nodup_hash1 _ _).mp hh)
      exact hn _ hm ⟨rfl, rfl, rfl⟩
  refine ⟨?_, ?_, ?_, ?_⟩
  · intro d hd
    simp [dev_string, h3some d hd]
  · intro hn3 d hd
    simp [dev_string, h3none hn3, h2some d hd]
  · intro hn3 hn2 d hd
    simp [dev_string, h3none hn3, h2none hn2, h1some d hd]
  · intro hn3 hn2 hn1
    simp [dev_string, h3none hn3, h2none hn2, h1none hn1]

theorem C9_dev_string_precedence_witness :
    dev_string 9 0 1 = "Hi-speed Hub with single TT" ∧
    dev_string 8 4 18 = "MassStorage UFI" ++ " (" ++ hex2 18 ++ ")" ∧
    dev_string 2 51 68 = "Comm" ++ " (" ++ hex2 51 ++ "," ++ hex2 68 ++ ")" ∧
    dev_string 4 1 2 = "Unkonwn(" ++ hex2 4 ++ "," ++ hex2 1 ++ "," ++ hex2 2 ++ ")" := by
  have h1 := (C9_dev_string_precedence 9 0 1).1 "Hi-speed Hub with single TT" (by decide)
  have h2 := (C9_dev_string_precedence 8 4 18).2.1 (by decide) "MassStorage UFI" (by decide)
  have h3 := (C9_dev_string_precedence 2 51 68).2.2.1 (by decide) (by decide) "Comm" (by decide)
  have h4 := (C9_dev_string_precedence 4 1 2).2.2.2 (by decide) (by decide) (by decide)
  exact ⟨h1, h2, h3, h4⟩

/-- C10 counterexample: when the first fetch fails with an error outside
the rescued set, nothing is cached, and a second call opens the device
and fetches from the hardware again: the string is not fetched at most
once per wrapper, and the subsequent call does not return a cached
value. -/
theorem C10_fetch_twice_counterexample :
    (device_manufacturer fetchFail dLive).2.2 = true ∧
    (device_manufacturer fetchFail dLive).2.1.manufacturer_iv = none ∧
    (device_manufacturer fetchFail ((device_manufacturer fetchFail dLive).2.1)).2.2 =
      true := by
  exact ⟨rfl, rfl, rfl⟩

/-- C10 amended: once a call to Device#manufacturer, Device#product or
Device#serial_number completes successfully, the (possibly nil) stripped
result is cached in the instance variable; every later call returns the
cached value without opening the device again, in particular after the
wrapper has been revoked.  A failed fetch caches nothing. -/
theorem C10_cached_strings (d : DeviceRb) (v : Option (List Nat))
    (fetch fetch2 : Except UsbErr (Option (List Nat)))
    (hnat : d.native.isSome = true)
    (h1 : d.manufacturer_iv = none) (h2 : d.product_iv = none)
    (h3 : d.serial_iv = none) :
    (device_manufacturer (.ok v) d).1 = .ok (v.map stripBytes) ∧
    (device_manufacturer (.ok v) d).2.2 = true ∧
    (device_manufacturer (.ok v) d).2.1.manufacturer_iv = some (v.map stripBytes) ∧
    device_manufacturer fetch (device_manufacturer (.ok v) d).2.1 =
      (.ok (v.map stripBytes), (device_manufacturer (.ok v) d).2.1, false) ∧
    device_manufacturer fetch2
        { (device_manufacturer (.ok v) d).2.1 with native := none } =
      (.ok (v.map stripBytes),
        { (device_manufacturer (.ok v) d).2.1 with native := none }, false) ∧
    (device_product (.ok v) d).2.1.product_iv = some (v.map stripBytes) ∧
    device_product fetch { (device_product (.ok v) d).2.1 with native := none } =
      (.ok (v.map stripBytes),
        { (device_product (.ok v) d).2.1 with native := none }, false) ∧
    (device_serial_number (.ok v) d).2.1.serial_iv = some (v.map stripBytes) ∧
    device_serial_number fetch
        { (device_serial_number (.ok v) d).2.1 with native := none } =
      (.ok (v.map stripBytes),
        { (device_serial_number (.ok v) d).2.1 with native := none }, false) := by
  obtain ⟨wd, hw⟩ := Option.isSome_iff_exists.mp hnat
  simp [device_manufacturer, device_product, device_serial_number, cached_string_fetch,
    h1, h2, h3, hw]

theorem C10_cached_strings_witness :
    (device_manufacturer (.ok (some [32, 72, 105])) dLive).2.1.manufacturer_iv =
      some (some (stripBytes [32, 72, 105])) ∧
    device_manufacturer fetchFail
        { (device_manufacturer (.ok (some [32, 72, 105])) dLive).2.1 with
            native := none } =
      (.ok (some (stripBytes [32, 72, 105])),
        { (device_manufacturer (.ok (some [32, 72, 105])) dLive).2.1 with
            native := none }, false) := by
  have h := C10_cached_strings dLive (some [32, 72, 105]) fetchFail fetchFail
    (by decide) rfl rfl rfl
  exact ⟨h.2.2.1, h.2.2.2.2.1⟩

end RubyUsb
